import Mathlib

/-!
Shallow embedding of the booking lifecycle core of the Flight-Booking-Service
repository: the Booking model, the BookingRepository operations, the
BookingService createBooking and makePayment flows, the controller-level
idempotency cache, and the bulk expiry sweep.

Times are modelled as integer milliseconds (JavaScript Date arithmetic);
monetary amounts, ids and seat counts as integers.  Remote HTTP calls
(axios.get on the flight, axios.patch on the seats) are modelled by
parameters giving their outcome, since they are external to this service.
-/

/-- Booking lifecycle states, from the BOOKING_STATUS enum
(values "initiated", "cancelled", "pending", "booked"). -/
inductive BookingStatus where
  | initiated
  | cancelled
  | pending
  | booked
  deriving DecidableEq, Repr

/-- A persisted Booking row (src/models/booking.js).  The status column
defaults to initiated.  The updatedAt column is not modelled; no claim
refers to it. -/
structure Booking where
  id : Nat
  flightId : Int
  userId : Int
  status : BookingStatus
  noOfSeats : Int
  totalCost : Int
  createdAt : Int
  deriving DecidableEq, Repr

/-- An AppError carries a message and an HTTP status code
(src/utils/errors/app-error). -/
structure AppError where
  message : String
  statusCode : Nat
  deriving DecidableEq, Repr

/-- A thrown JavaScript value: either an AppError, or a ReferenceError on an
identifier that is not in scope (booking-repository.js evaluates
new AppError(...) without ever requiring AppError, which at runtime raises
ReferenceError: AppError is not defined). -/
inductive JsError where
  | appError (e : AppError)
  | referenceError (ident : String)
  deriving DecidableEq, Repr

/-- A Sequelize transaction, holding the rows created under it and not yet
committed.  In this codebase no read ever observes its own pending rows,
so reads go against the committed store. -/
structure Txn where
  pending : List Booking
  deriving DecidableEq, Repr

/-- transaction.commit(): the pending rows become durable. -/
def txCommit (store : List Booking) (tx : Txn) : List Booking :=
  store ++ tx.pending

/-- transaction.rollback(): the pending rows are discarded; writes that ran
outside the transaction are untouched. -/
def txRollback (store : List Booking) (_tx : Txn) : List Booking :=
  store

/-- Model.findByPk: the row with the given primary key, if any. -/
def findByPk (store : List Booking) (id : Nat) : Option Booking :=
  store.find? (fun b => b.id == id)

/-- BookingRepository.get (booking-repository.js lines 16-25): findByPk under
the transaction; when the row is absent the code evaluates
new AppError("Not able to find the resource", NOT_FOUND), but
booking-repository.js never requires AppError, so that very evaluation
raises a ReferenceError on the identifier AppError instead of the intended
404 error. -/
def bookingRepositoryGet (store : List Booking) (id : Nat) (_tx : Txn) :
    Except JsError Booking :=
  match findByPk store id with
  | some b => .ok b
  | none => .error (.referenceError "AppError")

/-- The effect of Model.update(values, where id) on the durable store:
every row with the given id gets the new status.  All update calls in this
service only ever write the status column. -/
def repoUpdate (s : BookingStatus) (id : Nat) (store : List Booking) :
    List Booking :=
  store.map (fun b => if b.id = id then { b with status := s } else b)

/-- BookingRepository.update (booking-repository.js lines 27-43).  The caller
passes the transaction as a THIRD positional argument, but Sequelize's
Model.update signature is (values, options); a third argument is ignored.
The write therefore runs outside the transaction and autocommits directly
against the durable store, which is why the tx argument is unused here.
The returned affected-row count array is always truthy, so the not-found
branch of the source is dead code and the call never throws. -/
def bookingRepositoryUpdate (s : BookingStatus) (id : Nat) (_tx : Txn)
    (store : List Booking) : List Booking :=
  repoUpdate s id store

/-- BookingRepository.cancelOldBookings(timestamp)
(booking-repository.js lines 45-71): one bulk conditional UPDATE setting
status to cancelled on every row with createdAt earlier than the timestamp
whose status is neither booked nor cancelled. -/
def cancelOldBookings (timestamp : Int) (store : List Booking) :
    List Booking :=
  store.map (fun b =>
    if b.createdAt < timestamp ∧ b.status ≠ .booked ∧ b.status ≠ .cancelled
    then { b with status := .cancelled } else b)

/-- Modelled from the spec: the sweeper tick body,
BookingService.cancelOldBookings as invoked by scheduleCronJobs
(src/utils/common/cron-jobs.js), is not among the provided source files —
only its caller is.  Per the spec, each tick computes a threshold and issues
the single bulk conditional update, i.e. it applies
BookingRepository.cancelOldBookings (which is in the source) at that
threshold. -/
def sweeperTick (threshold : Int) (store : List Booking) : List Booking :=
  cancelOldBookings threshold store

/-- The input object assembled by the controller for
BookingService.makePayment. -/
structure PaymentData where
  bookingId : Nat
  totalCost : Int
  userId : Int
  deriving DecidableEq, Repr

/-- The error thrown for a cancelled or out-of-window payment
(booking-service.js lines 60-63 and 71-74). -/
def expiredError : AppError :=
  { message := "Booking payment time expired", statusCode := 400 }

/-- The error thrown when the paid amount differs from the stored total cost
(booking-service.js line 77). -/
def amountMismatchError : AppError :=
  { message := "Payment amount mismatch", statusCode := 400 }

/-- The error thrown when the paying user differs from the booking owner
(booking-service.js line 80). -/
def userMismatchError : AppError :=
  { message := "User ID mismatch", statusCode := 400 }

/-- BookingService.makePayment (booking-service.js lines 51-93).
now and createdAt are in milliseconds, and
diffInMinutes = Math.floor((now - createdAt) / 60000), i.e. integer
floor division.  The function body has no return statement, so on success
the JavaScript function returns undefined: modelled as .ok none.
The expiry-path status write runs outside the transaction (see
bookingRepositoryUpdate), so it survives the rollback performed by the
catch block before the error is rethrown. -/
def makePayment (data : PaymentData) (now : Int) (store : List Booking) :
    Except JsError (Option Booking) × List Booking :=
  let tx : Txn := { pending := [] }
  match bookingRepositoryGet store data.bookingId tx with
  | .error e => (.error e, txRollback store tx)
  | .ok booking =>
    let diffInMinutes : Int := (now - booking.createdAt).fdiv 60000
    if booking.status = .cancelled then
      (.error (.appError expiredError), txRollback store tx)
    else if diffInMinutes > 15 then
      let store1 := bookingRepositoryUpdate .cancelled data.bookingId tx store
      (.error (.appError expiredError), txRollback store1 tx)
    else if booking.totalCost ≠ data.totalCost then
      (.error (.appError amountMismatchError), txRollback store tx)
    else if booking.userId ≠ data.userId then
      (.error (.appError userMismatchError), txRollback store tx)
    else
      let store1 := bookingRepositoryUpdate .booked data.bookingId tx store
      (.ok none, txCommit store1 tx)

/-- The input object assembled by the controller for
BookingService.createBooking. -/
structure BookingData where
  flightId : Int
  userId : Int
  noOfSeats : Int
  deriving DecidableEq, Repr

/-- The flight payload read from the remote flight service:
flightData.totalSeats and flightData.price. -/
structure FlightData where
  totalSeats : Int
  price : Int
  deriving DecidableEq, Repr

/-- The error the catch block of createBooking throws for every failure of
the creation flow (booking-service.js lines 44-47). -/
def cannotCreateError : AppError :=
  { message := "Cannot create a new booking object", statusCode := 500 }

/-- The error the capacity check raises internally
(booking-service.js line 19); it is swallowed by the catch block and
replaced by cannotCreateError before reaching the caller. -/
def insufficientCapacityError : AppError :=
  { message := "Not enough seats available", statusCode := 400 }

instance {ε α : Type} [DecidableEq ε] [DecidableEq α] :
    DecidableEq (Except ε α) := fun x y =>
  match x, y with
  | .ok a, .ok b =>
    if h : a = b then .isTrue (congrArg Except.ok h)
    else .isFalse (fun hh => h (Except.ok.inj hh))
  | .error a, .error b =>
    if h : a = b then .isTrue (congrArg Except.error h)
    else .isFalse (fun hh => h (Except.error.inj hh))
  | .ok _, .error _ => .isFalse (fun hh => Except.noConfusion hh)
  | .error _, .ok _ => .isFalse (fun hh => Except.noConfusion hh)

/-- The outcome of one createBooking call: the value returned or error
thrown, the durable store afterwards, and whether the remote seats
decrement (axios.patch) was attempted. -/
structure CreateResult where
  result : Except JsError Booking
  store : List Booking
  patchAttempted : Bool
  deriving DecidableEq, Repr

/-- BookingService.createBooking (booking-service.js lines 10-49).
flightFetch is the outcome of the axios.get on the flight (none models a
network or non-2xx failure); patchSucceeds is the outcome of the
axios.patch seats decrement; newId and now are the id and createdAt the
database assigns to the new row.  Booking.create runs with the transaction
in its options, so the new row is pending until commit and is discarded by
rollback.  Every throw lands in the catch block, which rolls back and
throws cannotCreateError. -/
def createBooking (data : BookingData) (flightFetch : Option FlightData)
    (patchSucceeds : Bool) (newId : Nat) (now : Int) (store : List Booking) :
    CreateResult :=
  let tx : Txn := { pending := [] }
  match flightFetch with
  | none =>
    { result := .error (.appError cannotCreateError),
      store := txRollback store tx, patchAttempted := false }
  | some flightData =>
    if data.noOfSeats > flightData.totalSeats then
      { result := .error (.appError cannotCreateError),
        store := txRollback store tx, patchAttempted := false }
    else
      let totalCost := data.noOfSeats * flightData.price
      let booking : Booking :=
        { id := newId, flightId := data.flightId, userId := data.userId,
          status := .initiated, noOfSeats := data.noOfSeats,
          totalCost := totalCost, createdAt := now }
      let tx1 : Txn := { pending := [booking] }
      if patchSucceeds then
        { result := .ok booking, store := txCommit store tx1,
          patchAttempted := true }
      else
        { result := .error (.appError cannotCreateError),
          store := txRollback store tx1, patchAttempted := true }

/-- A JavaScript value as it appears in the data field of the controller's
response envelope. -/
inductive JsValue where
  | undefinedVal
  | str (s : String)
  | bookingVal (b : Booking)
  deriving DecidableEq, Repr

/-- The value the controller puts into successResponse.data from the
service's return value (undefined stays undefined). -/
def jsValueOf : Option Booking → JsValue
  | some b => .bookingVal b
  | none => .undefinedVal

/-- The process-wide inMemoryCache object of booking-controller.js.  The
only property the code ever assigns is the literal key "x-idempotency-key"
(not the client's token), so the object is a single slot holding the most
recent successful idempotency key. -/
structure CacheState where
  slot : Option String
  deriving DecidableEq, Repr

/-- Property read inMemoryCache[key] on the cache object: defined only when
key is the literal "x-idempotency-key" and that slot was assigned;
undefined otherwise (in particular for every client token). -/
def cacheLookup (c : CacheState) (key : String) : JsValue :=
  if key = "x-idempotency-key" then
    match c.slot with
    | some s => .str s
    | none => .undefinedVal
  else .undefinedVal

/-- The payment HTTP request: the x-idempotency-key header (none when
absent) and the body fields the controller forwards. -/
structure PayRequest where
  idempotencyKey : Option String
  totalCost : Int
  userId : Int
  bookingId : Nat
  deriving DecidableEq, Repr

/-- The controller's HTTP response: status code passed to res.status (none
when error.statusCode is undefined, as for a ReferenceError), the envelope
message, the data field, and the error field of the error envelope. -/
structure PayResponse where
  status : Option Nat
  message : String
  data : JsValue
  err : Option JsError
  deriving DecidableEq, Repr

/-- The error thrown when the x-idempotency-key header is absent
(booking-controller.js lines 36-39). -/
def missingKeyError : AppError :=
  { message := "Idempotency key is required", statusCode := 400 }

/-- error.statusCode as read by the controller's catch block: present on an
AppError, undefined on a ReferenceError. -/
def jsErrorStatus : JsError → Option Nat
  | .appError e => some e.statusCode
  | .referenceError _ => none

/-- BookingController.makePayment (booking-controller.js lines 31-61).
The cache check compares the slot inMemoryCache["x-idempotency-key"] with
the client's key; on a hit it replies 200 "Payment already processed" with
data inMemoryCache[idempotencyKey] (undefined unless the token is literally
"x-idempotency-key").  Otherwise it runs the service call; on success it
replies 201 "Payment made successfully" with the service's return value as
data and stores the key in the slot; on error it replies with the error's
status code and the failure envelope. -/
def controllerMakePayment (req : PayRequest) (now : Int) (c : CacheState)
    (store : List Booking) : PayResponse × CacheState × List Booking :=
  match req.idempotencyKey with
  | none =>
    ({ status := some 400, message := "Failed to pay for the booking",
       data := .undefinedVal, err := some (.appError missingKeyError) }, c, store)
  | some key =>
    if c.slot = some key then
      ({ status := some 200, message := "Payment already processed",
         data := cacheLookup c key, err := none }, c, store)
    else
      match makePayment
          { bookingId := req.bookingId, totalCost := req.totalCost,
            userId := req.userId } now store with
      | (.ok v, store1) =>
        ({ status := some 201, message := "Payment made successfully",
           data := jsValueOf v, err := none }, { slot := some key }, store1)
      | (.error e, store1) =>
        ({ status := jsErrorStatus e, message := "Failed to pay for the booking",
           data := .undefinedVal, err := some e }, c, store1)

/-- An initiated booking used as a concrete fixture. -/
def bInit : Booking :=
  { id := 1, flightId := 10, userId := 7, status := .initiated,
    noOfSeats := 2, totalCost := 10000, createdAt := 0 }

/-- A booked booking used as a concrete fixture. -/
def bBooked : Booking :=
  { id := 1, flightId := 10, userId := 7, status := .booked,
    noOfSeats := 2, totalCost := 10000, createdAt := 0 }

/-- A cancelled booking used as a concrete fixture. -/
def bCancelled : Booking :=
  { id := 2, flightId := 10, userId := 7, status := .cancelled,
    noOfSeats := 2, totalCost := 10000, createdAt := 0 }

/-- A payment request fixture matching bInit. -/
def payReq : PayRequest :=
  { idempotencyKey := some "tok-1", totalCost := 10000, userId := 7,
    bookingId := 1 }

@[simp]
theorem statusUpdate_id (b : Booking) (s : BookingStatus) :
    ({ b with status := s } : Booking).id = b.id := rfl

@[simp]
theorem statusUpdate_flightId (b : Booking) (s : BookingStatus) :
    ({ b with status := s } : Booking).flightId = b.flightId := rfl

@[simp]
theorem statusUpdate_userId (b : Booking) (s : BookingStatus) :
    ({ b with status := s } : Booking).userId = b.userId := rfl

@[simp]
theorem statusUpdate_status (b : Booking) (s : BookingStatus) :
    ({ b with status := s } : Booking).status = s := rfl

@[simp]
theorem statusUpdate_noOfSeats (b : Booking) (s : BookingStatus) :
    ({ b with status := s } : Booking).noOfSeats = b.noOfSeats := rfl

@[simp]
theorem statusUpdate_totalCost (b : Booking) (s : BookingStatus) :
    ({ b with status := s } : Booking).totalCost = b.totalCost := rfl

@[simp]
theorem statusUpdate_createdAt (b : Booking) (s : BookingStatus) :
    ({ b with status := s } : Booking).createdAt = b.createdAt := rfl

theorem statusUpdate_eq_self (b : Booking) (s : BookingStatus)
    (h : b.status = s) : ({ b with status := s } : Booking) = b := by
  cases h
  rfl

theorem findByPk_repoUpdate (s : BookingStatus) (id : Nat)
    (l : List Booking) :
    findByPk (repoUpdate s id l) id =
      (findByPk l id).map (fun b => { b with status := s }) := by
  unfold findByPk repoUpdate
  rw [List.find?_map]
  have hp : ((fun x : Booking => x.id == id) ∘
      (fun b : Booking => if b.id = id then { b with status := s } else b)) =
      fun b : Booking => b.id == id := by
    funext b
    by_cases hb : b.id = id <;> simp [hb]
  rw [hp]
  cases hfind : l.find? (fun b : Booking => b.id == id) with
  | none => rfl
  | some b =>
    have hsat := List.find?_some hfind
    simp only [beq_iff_eq] at hsat
    simp [hsat]

theorem mem_repoUpdate {c : Booking} {s : BookingStatus} {id : Nat}
    {l : List Booking} (h : c ∈ repoUpdate s id l) :
    ∃ b, b ∈ l ∧ c.id = b.id ∧ c.totalCost = b.totalCost ∧
      c.noOfSeats = b.noOfSeats ∧ c.createdAt = b.createdAt := by
  unfold repoUpdate at h
  obtain ⟨b, hb, hc⟩ := List.mem_map.1 h
  subst hc
  by_cases hid : b.id = id <;> refine ⟨b, hb, ?_⟩ <;> simp [hid]

theorem mem_cancelOldBookings {c : Booking} {ts : Int} {l : List Booking}
    (h : c ∈ cancelOldBookings ts l) :
    ∃ b, b ∈ l ∧ c.id = b.id ∧ c.totalCost = b.totalCost ∧
      c.noOfSeats = b.noOfSeats ∧ c.createdAt = b.createdAt := by
  unfold cancelOldBookings at h
  obtain ⟨b, hb, hc⟩ := List.mem_map.1 h
  subst hc
  by_cases hcond : b.createdAt < ts ∧ b.status ≠ .booked ∧ b.status ≠ .cancelled <;>
    refine ⟨b, hb, ?_⟩ <;> simp [hcond]

/-- Claim C1 (amended): once a reservation's status is Cancelled, no
subsequent makePayment call changes it (the call rejects with the expired
error and leaves the store untouched); a Booked reservation is likewise
left unchanged by any makePayment call whose floored elapsed minutes are at
most 15, but not in general: a later payment attempt does cancel it (see
the counterexample). -/
theorem makePayment_terminal_amended
    (d : PaymentData) (now : Int) (store : List Booking) (b : Booking)
    (hfind : findByPk store d.bookingId = some b) :
    (b.status = .cancelled →
      makePayment d now store = (.error (.appError expiredError), store)) ∧
    (b.status = .booked → (now - b.createdAt).fdiv 60000 ≤ 15 →
      findByPk (makePayment d now store).2 d.bookingId = some b) := by
  constructor
  · intro hc
    simp [makePayment, bookingRepositoryGet, hfind, hc, txRollback]
  · intro hb ht
    have hnt : ¬ ((now - b.createdAt).fdiv 60000 > 15) := not_lt.2 ht
    by_cases hcost : b.totalCost = d.totalCost
    · by_cases huser : b.userId = d.userId
      · simp [makePayment, bookingRepositoryGet, hfind, hb, hnt, hcost, huser,
          bookingRepositoryUpdate, txCommit, txRollback, findByPk_repoUpdate]
        rw [← hcost, ← huser]
        exact statusUpdate_eq_self b .booked hb
      · simp [makePayment, bookingRepositoryGet, hfind, hb, hnt, hcost, huser,
          txRollback]
    · simp [makePayment, bookingRepositoryGet, hfind, hb, hnt, hcost,
        txRollback]

/-- Claim C1 (counterexample): a reservation whose status is Booked is not
terminal under makePayment: a payment attempt 16 minutes after creation
sets its status to Cancelled. -/
theorem makePayment_terminal_counterexample :
    bBooked.status = .booked ∧
    makePayment { bookingId := 1, totalCost := 10000, userId := 7 } 960000
        [bBooked] =
      (.error (.appError expiredError),
       [{ bBooked with status := .cancelled }]) ∧
    BookingStatus.cancelled ≠ .booked := by
  refine ⟨rfl, ?_, by decide⟩
  rfl

/-- Claim C1 (witness): the amended theorem applied to a concrete cancelled
reservation. -/
theorem makePayment_terminal_witness :
    makePayment { bookingId := 2, totalCost := 10000, userId := 7 } 60000
        [bCancelled] =
      (.error (.appError expiredError), [bCancelled]) := by
  exact (makePayment_terminal_amended
    { bookingId := 2, totalCost := 10000, userId := 7 } 60000 [bCancelled]
    bCancelled (by decide)).1 (by decide)

/-- Claim C2 (amended): after a first pay call with a fresh token succeeds
(HTTP 201), a second pay call carrying the same token skips the payment
logic entirely — the store and the cache are left exactly as the first call
left them, so the underlying state transition happens at most once — but it
does not return the stored outcome of the first call: it returns a distinct
envelope (HTTP 200, message "Payment already processed") whose data is the
cache read under the token, which is undefined for every ordinary token
because the outcome is never stored under the token. -/
theorem controllerMakePayment_idempotency_amended
    (req : PayRequest) (key : String) (now1 now2 : Int)
    (c : CacheState) (store : List Booking)
    (hkey : req.idempotencyKey = some key)
    (hmiss : c.slot ≠ some key)
    (hok : ∃ v, (makePayment
      { bookingId := req.bookingId, totalCost := req.totalCost,
        userId := req.userId } now1 store).1 = Except.ok v) :
    (controllerMakePayment req now1 c store).1.status = some 201 ∧
    controllerMakePayment req now2
        (controllerMakePayment req now1 c store).2.1
        (controllerMakePayment req now1 c store).2.2 =
      ({ status := some 200, message := "Payment already processed",
         data := cacheLookup { slot := some key } key, err := none },
       (controllerMakePayment req now1 c store).2.1,
       (controllerMakePayment req now1 c store).2.2) := by
  obtain ⟨v, hv1⟩ := hok
  cases hp : makePayment
    { bookingId := req.bookingId, totalCost := req.totalCost,
      userId := req.userId } now1 store with
  | mk r store1 =>
    rw [hp] at hv1
    simp only at hv1
    subst hv1
    have h1 : controllerMakePayment req now1 c store =
        ({ status := some 201, message := "Payment made successfully",
           data := jsValueOf v, err := none }, { slot := some key },
         store1) := by
      simp [controllerMakePayment, hkey, hmiss, hp]
    rw [h1]
    refine ⟨rfl, ?_⟩
    simp [controllerMakePayment, hkey]

/-- Claim C2 (counterexample): two pay calls with the same token on the same
reservation do not produce identical outcomes, and the second does not
return the stored outcome of the first: the first returns the 201 envelope
"Payment made successfully" with undefined data, the second the 200
envelope "Payment already processed" with undefined data (nothing is ever
stored under the token itself). -/
theorem controllerMakePayment_idempotency_counterexample :
    controllerMakePayment payReq 60000 { slot := none } [bInit] =
      ({ status := some 201, message := "Payment made successfully",
         data := .undefinedVal, err := none }, { slot := some "tok-1" },
       [{ bInit with status := .booked }]) ∧
    controllerMakePayment payReq 120000 { slot := some "tok-1" }
        [{ bInit with status := .booked }] =
      ({ status := some 200, message := "Payment already processed",
         data := .undefinedVal, err := none }, { slot := some "tok-1" },
       [{ bInit with status := .booked }]) ∧
    ({ status := some 200, message := "Payment already processed",
       data := .undefinedVal, err := none } : PayResponse) ≠
      { status := some 201, message := "Payment made successfully",
        data := .undefinedVal, err := none } := by
  refine ⟨rfl, rfl, by decide⟩

/-- Claim C2 (witness): the amended theorem applied to a concrete first and
second call with token "tok-1". -/
theorem controllerMakePayment_idempotency_witness :
    (controllerMakePayment payReq 60000 { slot := none } [bInit]).1.status =
      some 201 ∧
    controllerMakePayment payReq 120000
        (controllerMakePayment payReq 60000 { slot := none } [bInit]).2.1
        (controllerMakePayment payReq 60000 { slot := none } [bInit]).2.2 =
      ({ status := some 200, message := "Payment already processed",
         data := cacheLookup { slot := some "tok-1" } "tok-1", err := none },
       (controllerMakePayment payReq 60000 { slot := none } [bInit]).2.1,
       (controllerMakePayment payReq 60000 { slot := none } [bInit]).2.2) := by
  exact controllerMakePayment_idempotency_amended payReq "tok-1" 60000 120000
    { slot := none } [bInit] rfl (by decide) ⟨none, rfl⟩

/-- Claim C3 (amended): a pay call on a non-Cancelled reservation whose
floored elapsed whole minutes exceed 15 (i.e. at least 16 minutes have
elapsed) sets the reservation's status to Cancelled in the durable store —
the write runs outside the transaction, so it survives the rollback in the
catch block — and the call fails with the payment-window-expired error.
An elapsed time that merely exceeds 15 minutes without reaching 16 floored
minutes does not trigger this path (see the counterexample). -/
theorem makePayment_expiry_amended
    (d : PaymentData) (now : Int) (store : List Booking) (b : Booking)
    (hfind : findByPk store d.bookingId = some b)
    (hnc : b.status ≠ .cancelled)
    (ht : (now - b.createdAt).fdiv 60000 > 15) :
    (makePayment d now store).1 = .error (.appError expiredError) ∧
    findByPk (makePayment d now store).2 d.bookingId =
      some { b with status := .cancelled } := by
  constructor <;>
    simp [makePayment, bookingRepositoryGet, hfind, hnc, ht,
      bookingRepositoryUpdate, txRollback, findByPk_repoUpdate]

/-- Claim C3 (counterexample): a pay call 15.5 minutes after creation —
elapsed time strictly greater than the 15-minute payment window — is not
cancelled and does not fail: Math.floor gives 15 whole minutes, the guard
15 < 15 is false, and a matching payment books the reservation. -/
theorem makePayment_expiry_counterexample :
    ((930000 : Int) - bInit.createdAt) > 15 * 60000 ∧
    makePayment { bookingId := 1, totalCost := 10000, userId := 7 } 930000
        [bInit] =
      (.ok none, [{ bInit with status := .booked }]) ∧
    BookingStatus.booked ≠ .cancelled := by
  refine ⟨by decide, rfl, by decide⟩

/-- Claim C3 (witness): the amended theorem applied to a pay call 16 minutes
after creation of an initiated reservation. -/
theorem makePayment_expiry_witness :
    (makePayment { bookingId := 1, totalCost := 10000, userId := 7 } 960000
        [bInit]).1 = .error (.appError expiredError) ∧
    findByPk (makePayment { bookingId := 1, totalCost := 10000, userId := 7 }
        960000 [bInit]).2 1 =
      some { bInit with status := .cancelled } := by
  exact makePayment_expiry_amended
    { bookingId := 1, totalCost := 10000, userId := 7 } 960000 [bInit] bInit
    (by decide) (by decide) (by decide)

theorem sweeperTick_length (ts : Int) (store : List Booking) :
    (sweeperTick ts store).length = store.length := by
  simp [sweeperTick, cancelOldBookings]

theorem makePayment_store_shape (pd : PaymentData) (t : Int)
    (st : List Booking) :
    (makePayment pd t st).2 = st ∨
    (makePayment pd t st).2 = repoUpdate .cancelled pd.bookingId st ∨
    (makePayment pd t st).2 = repoUpdate .booked pd.bookingId st := by
  cases hfind : findByPk st pd.bookingId with
  | none =>
    left
    simp [makePayment, bookingRepositoryGet, hfind, txRollback]
  | some b =>
    by_cases h1 : b.status = .cancelled
    · left
      simp [makePayment, bookingRepositoryGet, hfind, h1, txRollback]
    · by_cases h2 : (t - b.createdAt).fdiv 60000 > 15
      · right; left
        simp [makePayment, bookingRepositoryGet, hfind, h1, h2, txRollback,
          bookingRepositoryUpdate]
      · by_cases h3 : b.totalCost = pd.totalCost
        · by_cases h4 : b.userId = pd.userId
          · right; right
            simp [makePayment, bookingRepositoryGet, hfind, h1, h2, h3, h4,
              txCommit, bookingRepositoryUpdate]
          · left
            simp [makePayment, bookingRepositoryGet, hfind, h1, h2, h3, h4,
              txRollback]
        · left
          simp [makePayment, bookingRepositoryGet, hfind, h1, h2, h3,
            txRollback]

/-- Claim C4: a sweeper tick with threshold ts sets status Cancelled on
every row whose createdAt is earlier than ts and whose status is Initiated
or Pending, and leaves every Booked or Cancelled row, and every row with
createdAt not earlier than ts, exactly as it was (one bulk conditional
update, positionally row for row). -/
theorem sweeperTick_bulk_cancel (ts : Int) (store : List Booking) (i : Nat)
    (h : i < store.length) :
    (((store.get ⟨i, h⟩).status = .initiated ∨
        (store.get ⟨i, h⟩).status = .pending) →
      (store.get ⟨i, h⟩).createdAt < ts →
      (sweeperTick ts store).get ⟨i, (sweeperTick_length ts store).symm ▸ h⟩ =
        { store.get ⟨i, h⟩ with status := .cancelled }) ∧
    (((store.get ⟨i, h⟩).status = .booked ∨
        (store.get ⟨i, h⟩).status = .cancelled) →
      (sweeperTick ts store).get ⟨i, (sweeperTick_length ts store).symm ▸ h⟩ =
        store.get ⟨i, h⟩) ∧
    (¬ (store.get ⟨i, h⟩).createdAt < ts →
      (sweeperTick ts store).get ⟨i, (sweeperTick_length ts store).symm ▸ h⟩ =
        store.get ⟨i, h⟩) := by
  have key : ∀ h2 : i < (sweeperTick ts store).length,
      (sweeperTick ts store).get ⟨i, h2⟩ =
        (if (store.get ⟨i, h⟩).createdAt < ts ∧
            (store.get ⟨i, h⟩).status ≠ .booked ∧
            (store.get ⟨i, h⟩).status ≠ .cancelled
         then { store.get ⟨i, h⟩ with status := .cancelled }
         else store.get ⟨i, h⟩) := by
    intro h2
    simp [sweeperTick, cancelOldBookings, List.get_eq_getElem,
      List.getElem_map]
  refine ⟨?_, ?_, ?_⟩
  · intro hs hlt
    rw [key, if_pos]
    refine ⟨hlt, ?_, ?_⟩ <;> rcases hs with h5 | h5 <;> rw [h5] <;> decide
  · intro hs
    rw [key, if_neg]
    rintro ⟨-, hb, hc⟩
    rcases hs with h5 | h5
    · exact hb h5
    · exact hc h5
  · intro hlt
    rw [key, if_neg]
    rintro ⟨hl, -, -⟩
    exact hlt hl

/-- Claim C4 (witness): a tick with threshold 1 cancels the initiated
fixture row created at time 0. -/
theorem sweeperTick_bulk_cancel_witness :
    (sweeperTick 1 [bInit, bBooked]).get ⟨0, by decide⟩ =
      { bInit with status := .cancelled } := by
  have h := sweeperTick_bulk_cancel 1 [bInit, bBooked] 0 (by decide)
  exact h.1 (Or.inl (by decide)) (by decide)

/-- Claim C5: a create call with noOfSeats 60 against a flight with
totalSeats 50 fails, persists no reservation and never attempts the seats
patch — but the error surfaced to the caller is the generic catch-all
AppError (message "Cannot create a new booking object", HTTP 500), not the
InsufficientCapacity error the capacity check raises internally
(message "Not enough seats available", HTTP 400), which the catch block
swallows. -/
theorem createBooking_capacity_bug :
    createBooking { flightId := 10, userId := 7, noOfSeats := 60 }
        (some { totalSeats := 50, price := 5000 }) true 1 0 [] =
      { result := .error (.appError cannotCreateError), store := [],
        patchAttempted := false } ∧
    (60 : Int) > 50 ∧
    cannotCreateError ≠ insufficientCapacityError := by
  exact ⟨rfl, by decide, by decide⟩

/-- Claim C6: a successful create with noOfSeats at most totalSeats
persists exactly one new reservation whose totalCost is
noOfSeats times the price read from inventory at creation time and whose
status is Initiated, and no later makePayment or cancelOldBookings call
ever changes any row's totalCost (or noOfSeats): status is the only column
those operations write. -/
theorem createBooking_totalCost_initiated
    (d : BookingData) (fd : FlightData) (newId : Nat) (now : Int)
    (store : List Booking)
    (hcap : d.noOfSeats ≤ fd.totalSeats) :
    (createBooking d (some fd) true newId now store).result =
      .ok { id := newId, flightId := d.flightId, userId := d.userId,
            status := .initiated, noOfSeats := d.noOfSeats,
            totalCost := d.noOfSeats * fd.price, createdAt := now } ∧
    (createBooking d (some fd) true newId now store).store =
      store ++ [({ id := newId, flightId := d.flightId, userId := d.userId, status := .initiated, noOfSeats := d.noOfSeats, totalCost := d.noOfSeats * fd.price, createdAt := now } : Booking)] ∧
    (∀ (pd : PaymentData) (t : Int) (st : List Booking) (c : Booking),
      c ∈ (makePayment pd t st).2 →
      ∃ b, b ∈ st ∧ c.id = b.id ∧ c.totalCost = b.totalCost ∧
        c.noOfSeats = b.noOfSeats) ∧
    (∀ (ts : Int) (st : List Booking) (c : Booking),
      c ∈ cancelOldBookings ts st →
      ∃ b, b ∈ st ∧ c.id = b.id ∧ c.totalCost = b.totalCost ∧
        c.noOfSeats = b.noOfSeats) := by
  have hn : ¬ (d.noOfSeats > fd.totalSeats) := not_lt.2 hcap
  refine ⟨?_, ?_, ?_, ?_⟩
  · simp [createBooking, hn, txCommit]
  · simp [createBooking, hn, txCommit]
  · intro pd t st c hc
    rcases makePayment_store_shape pd t st with hsh | hsh | hsh <;>
      rw [hsh] at hc
    · exact ⟨c, hc, rfl, rfl, rfl⟩
    · obtain ⟨b, hb, h1, h2, h3, -⟩ := mem_repoUpdate hc
      exact ⟨b, hb, h1, h2, h3⟩
    · obtain ⟨b, hb, h1, h2, h3, -⟩ := mem_repoUpdate hc
      exact ⟨b, hb, h1, h2, h3⟩
  · intro ts st c hc
    obtain ⟨b, hb, h1, h2, h3, -⟩ := mem_cancelOldBookings hc
    exact ⟨b, hb, h1, h2, h3⟩

/-- Claim C6 (witness): creating with 2 seats at unit price 5000 against
capacity 50 yields a persisted reservation with totalCost 10000 and status
Initiated (concrete scenario A). -/
theorem createBooking_totalCost_initiated_witness :
    (createBooking { flightId := 10, userId := 7, noOfSeats := 2 }
        (some { totalSeats := 50, price := 5000 }) true 1 0 []).result =
      .ok { id := 1, flightId := 10, userId := 7, status := .initiated,
            noOfSeats := 2, totalCost := 2 * 5000, createdAt := 0 } ∧
    (2 : Int) * 5000 = 10000 := by
  exact ⟨(createBooking_totalCost_initiated
    { flightId := 10, userId := 7, noOfSeats := 2 }
    { totalSeats := 50, price := 5000 } 1 0 [] (by decide)).1, by decide⟩

/-- Claim C7: a pay call whose bookingId matches no stored reservation does
not fail with the intended 404 AppError: because booking-repository.js
never requires AppError, evaluating new AppError(...) in the absent-row
branch raises ReferenceError on the identifier AppError, which is what the
call surfaces; the store is unchanged. -/
theorem makePayment_notFound_referenceError :
    makePayment { bookingId := 99, totalCost := 10000, userId := 7 } 60000
        [bInit] =
      (.error (.referenceError "AppError"), [bInit]) := rfl

/-- Claim C8: when the remote seats-decrement patch fails after the
reservation row was written under the open transaction, the catch block
rolls the transaction back — the pending row is discarded, so the store is
exactly as before — the patch was attempted, and the error surfaced is the
service's dependency-failure error (the catch-all AppError with message
"Cannot create a new booking object", HTTP 500). -/
theorem createBooking_patchFailure_rollback
    (d : BookingData) (fd : FlightData) (newId : Nat) (now : Int)
    (store : List Booking) (hcap : d.noOfSeats ≤ fd.totalSeats) :
    createBooking d (some fd) false newId now store =
      { result := .error (.appError cannotCreateError), store := store,
        patchAttempted := true } := by
  have hn : ¬ (d.noOfSeats > fd.totalSeats) := not_lt.2 hcap
  simp [createBooking, hn, txRollback]

/-- Claim C8 (witness): a concrete create whose patch fails leaves the
store unchanged and surfaces the catch-all error. -/
theorem createBooking_patchFailure_rollback_witness :
    createBooking { flightId := 10, userId := 7, noOfSeats := 2 }
        (some { totalSeats := 50, price := 5000 }) false 1 0 [bInit] =
      { result := .error (.appError cannotCreateError), store := [bInit],
        patchAttempted := true } := by
  exact createBooking_patchFailure_rollback
    { flightId := 10, userId := 7, noOfSeats := 2 }
    { totalSeats := 50, price := 5000 } 1 0 [bInit] (by decide)

/-- Claim C9 (amended): a pay call within the payment window on an
Initiated reservation with matching amount and matching userId sets the
reservation's status to Booked and succeeds — but the service returns
undefined (its body has no return statement), not the Reservation. -/
theorem makePayment_success_amended
    (d : PaymentData) (now : Int) (store : List Booking) (b : Booking)
    (hfind : findByPk store d.bookingId = some b)
    (hs : b.status = .initiated)
    (ht : (now - b.createdAt).fdiv 60000 ≤ 15)
    (hcost : d.totalCost = b.totalCost)
    (huser : d.userId = b.userId) :
    makePayment d now store =
      (.ok none, repoUpdate .booked d.bookingId store) ∧
    findByPk (makePayment d now store).2 d.bookingId =
      some { b with status := .booked } := by
  have hnt : ¬ ((now - b.createdAt).fdiv 60000 > 15) := not_lt.2 ht
  constructor
  · simp [makePayment, bookingRepositoryGet, hfind, hs, hnt, hcost.symm,
      huser.symm, bookingRepositoryUpdate, txCommit, txRollback]
  · simp [makePayment, bookingRepositoryGet, hfind, hs, hnt, hcost.symm,
      huser.symm, bookingRepositoryUpdate, txCommit, txRollback,
      findByPk_repoUpdate]

/-- Claim C9 (counterexample): a concrete in-window pay call with matching
amount and owner books the reservation but returns undefined — not the
Reservation the claim says is returned to the caller. -/
theorem makePayment_success_counterexample :
    makePayment { bookingId := 1, totalCost := 10000, userId := 7 } 60000
        [bInit] = (.ok none, [{ bInit with status := .booked }]) ∧
    (Except.ok none : Except JsError (Option Booking)) ≠
      .ok (some { bInit with status := .booked }) := by
  exact ⟨rfl, by decide⟩

/-- Claim C9 (witness): the amended theorem applied to a concrete in-window
payment on the initiated fixture. -/
theorem makePayment_success_witness :
    makePayment { bookingId := 1, totalCost := 10000, userId := 7 } 120000
        [bInit] = (.ok none, repoUpdate .booked 1 [bInit]) ∧
    findByPk (makePayment { bookingId := 1, totalCost := 10000, userId := 7 }
        120000 [bInit]).2 1 = some { bInit with status := .booked } := by
  exact makePayment_success_amended
    { bookingId := 1, totalCost := 10000, userId := 7 } 120000 [bInit] bInit
    (by decide) (by decide) (by decide) (by decide) (by decide)

/-- Claim C10: BookingRepository.update takes effect independently of the
transaction object handed to it (Sequelize ignores the third positional
argument), so its write lands directly on the durable store and persists
through the rollback that ends the enclosing makePayment transaction: after
an expired payment attempt the store equals the store with the cancellation
applied, even though the catch block rolled the transaction back. -/
theorem repoUpdate_transaction_independent :
    (∀ (s : BookingStatus) (id : Nat) (tx tx2 : Txn) (store : List Booking),
      bookingRepositoryUpdate s id tx store =
        bookingRepositoryUpdate s id tx2 store ∧
      txRollback (bookingRepositoryUpdate s id tx store) tx =
        repoUpdate s id store) ∧
    (∀ (d : PaymentData) (now : Int) (store : List Booking) (b : Booking),
      findByPk store d.bookingId = some b → b.status ≠ .cancelled →
      (now - b.createdAt).fdiv 60000 > 15 →
      (makePayment d now store).2 = repoUpdate .cancelled d.bookingId store) := by
  constructor
  · intro s id tx tx2 store
    exact ⟨rfl, rfl⟩
  · intro d now store b hfind hnc ht
    simp [makePayment, bookingRepositoryGet, hfind, hnc, ht,
      bookingRepositoryUpdate, txRollback]

/-- Claim C10 (witness): the expired-payment write persists through the
rollback on a concrete store. -/
theorem repoUpdate_transaction_independent_witness :
    (makePayment { bookingId := 1, totalCost := 10000, userId := 7 } 1000000
        [bInit]).2 = repoUpdate .cancelled 1 [bInit] := by
  exact repoUpdate_transaction_independent.2
    { bookingId := 1, totalCost := 10000, userId := 7 } 1000000 [bInit] bInit
    (by decide) (by decide) (by decide)
